import Mathlib

/-!
Verification of the task-manager storage layer (`src/task_manager/storage.py`
and `src/task_manager/models.py`).

The embedding models:
* JSON documents as an inductive `Json` (Python floats are represented by
  `Int`; no claim involves non-integer numbers),
* the on-disk state of the store as an `FS` record holding the target file,
  its `.tmp` sibling and its `.backup` sibling, each `Option FileData`
  (`none` = the file does not exist); a `FileData` is either a parsed JSON
  document or syntactically invalid bytes (`json.loads` succeeds exactly on
  the former),
* Python exceptions as an inductive `PyError` keyed by exception class and
  message,
* the non-determinism of `uuid.uuid4()` and `datetime.now()` as explicit
  generator parameters,
* fault injection for the write path (`Inj`): an OS-level failure at the
  temp-file write, at the rename, or at the backup copy.
-/

namespace TaskManager

/-- JSON values, the result of `json.loads`. -/
inductive Json where
  | null : Json
  | bool (b : Bool) : Json
  | num (n : Int) : Json
  | str (s : String) : Json
  | arr (xs : List Json) : Json
  | obj (kvs : List (String × Json)) : Json

mutual

/-- Structural boolean equality on JSON values. -/
def Json.beq : Json → Json → Bool
  | .null, .null => true
  | .bool a, .bool b => a == b
  | .num a, .num b => a == b
  | .str a, .str b => a == b
  | .arr a, .arr b => Json.beqList a b
  | .obj a, .obj b => Json.beqObj a b
  | _, _ => false

/-- Structural boolean equality on JSON arrays. -/
def Json.beqList : List Json → List Json → Bool
  | [], [] => true
  | x :: xs, y :: ys => Json.beq x y && Json.beqList xs ys
  | _, _ => false

/-- Structural boolean equality on JSON objects. -/
def Json.beqObj : List (String × Json) → List (String × Json) → Bool
  | [], [] => true
  | (k, v) :: xs, (l, w) :: ys => k == l && Json.beq v w && Json.beqObj xs ys
  | _, _ => false

end

/-- `Priority` enum from `models.py` (values "high" / "medium" / "low"). -/
inductive Priority where
  | high | medium | low
  deriving Repr, DecidableEq

/-- Serialized value of a `Priority` member (`Priority.X.value`). -/
def Priority.value : Priority → String
  | .high => "high"
  | .medium => "medium"
  | .low => "low"

/-- `Status` enum from `models.py` (values "active" / "completed"). -/
inductive Status where
  | active | completed
  deriving Repr, DecidableEq

/-- Serialized value of a `Status` member (`Status.X.value`). -/
def Status.value : Status → String
  | .active => "active"
  | .completed => "completed"

/-- The `priority` field of a task: either a `Priority` enum member, or any
other Python value (`__post_init__` only converts strings, and leaves every
non-string value untouched). Raw values coming from JSON are `Json`. -/
inductive PrioField where
  | enum (p : Priority)
  | raw (j : Json)

/-- The `status` field of a task: either a `Status` enum member or any other
Python value, as for `PrioField`. -/
inductive StatField where
  | enum (s : Status)
  | raw (j : Json)

/-- The `Task` dataclass from `models.py`. Fields other than
`priority`/`status` hold arbitrary JSON-derived Python values, because
`from_dict` copies whatever the parsed document contains without type
checks. -/
structure Task where
  title : Json
  description : Json
  priority : PrioField
  dueDate : Json
  status : StatField
  id : Json
  createdAt : Json
  completedAt : Json

/-- Python exceptions that the storage layer can raise or propagate,
keyed by exception class, carrying `str(e)`. -/
inductive PyError where
  | storageError (msg : String)
  | taskNotFoundError (msg : String)
  | keyError (msg : String)
  | valueError (msg : String)
  | osError (msg : String)
  deriving Repr, DecidableEq

/-- Python `str()` of a JSON-derived value, used in f-string error messages.
Scalars are faithful; the rendering of containers is abbreviated (no error
message in any claim depends on it). -/
def pyStr : Json → String
  | .null => "None"
  | .bool true => "True"
  | .bool false => "False"
  | .num n => toString n
  | .str s => s
  | .arr _ => "[...]"
  | .obj _ => "\x7b...\x7d"

/-- Python `==` on JSON-derived values. Scalars are faithful, including the
`bool`/`int` coercion (`True == 1`); lists and dicts are compared
structurally (Python compares dicts key-set-wise; no claim compares
container-valued IDs). -/
def pyEq : Json → Json → Bool
  | .null, .null => true
  | .bool a, .bool b => a == b
  | .bool a, .num n => (if a then (1 : Int) else 0) == n
  | .num n, .bool b => n == (if b then (1 : Int) else 0)
  | .num a, .num b => a == b
  | .str a, .str b => a == b
  | .arr a, .arr b => Json.beqList a b
  | .obj a, .obj b => Json.beqObj a b
  | _, _ => false

/-- Python `is None` test on a JSON-derived value. -/
def Json.isNull : Json → Bool
  | .null => true
  | _ => false

/-- Whitespace characters removed by Python `str.strip()` (the ASCII ones;
no claim involves non-ASCII whitespace). -/
def pyWhitespace (c : Char) : Bool :=
  c == ' ' || c == '\t' || c == '\n' || c == '\r' || c.toNat == 11 || c.toNat == 12

/-- Python `str.strip()`: remove leading and trailing whitespace. -/
def pyStrip (s : String) : String :=
  String.mk (((s.data.dropWhile pyWhitespace).reverse.dropWhile pyWhitespace).reverse)

/-- Python `str.lower()` (ASCII case folding; no claim involves non-ASCII
letters). -/
def pyLower (s : String) : String :=
  String.mk (s.data.map Char.toLower)

/-- Python substring test `needle in hay` on strings. -/
def strIn (needle hay : String) : Bool :=
  (List.range (hay.data.length + 1)).any fun i =>
    needle.data.isPrefixOf (hay.data.drop i)

/-- The title normalization of `__post_init__`: strip whitespace when the
title is a string (`if isinstance(self.title, str)`), leave any other value
untouched. -/
def titleStep : Json → Json
  | Json.str s => Json.str (pyStrip s)
  | j => j

/-- `Task.__post_init__`: auto-generate `id` and `created_at` when `None`,
strip a string title, convert a string `priority`/`status` to the enum
(case-insensitively) or raise `ValueError`. `genId` models `uuid.uuid4()`
and `genNow` models `datetime.now().isoformat()`. -/
def Task.postInit (genId genNow : String) (t : Task) : Except PyError Task :=
  let t := if t.id.isNull then { t with id := Json.str genId } else t
  let t := if t.createdAt.isNull then { t with createdAt := Json.str genNow } else t
  let t := { t with title := titleStep t.title }
  match t.priority with
  | PrioField.raw (Json.str s) =>
    let ls := pyLower s
    if ls = "high" then finish { t with priority := .enum .high }
    else if ls = "medium" then finish { t with priority := .enum .medium }
    else if ls = "low" then finish { t with priority := .enum .low }
    else Except.error (PyError.valueError ("Invalid priority: " ++ s))
  | _ => finish t
where
  /-- Status conversion, run after priority conversion. -/
  finish (t : Task) : Except PyError Task :=
    match t.status with
    | StatField.raw (Json.str s) =>
      let ls := pyLower s
      if ls = "active" then Except.ok { t with status := .enum .active }
      else if ls = "completed" then Except.ok { t with status := .enum .completed }
      else Except.error (PyError.valueError ("Invalid status: " ++ s))
    | _ => Except.ok t

/-- Python `dict.get(key, default)` over an association list. -/
def jget (kvs : List (String × Json)) (key : String) (dflt : Json) : Json :=
  match kvs.lookup key with
  | some v => v
  | none => dflt

/-- `Task.from_dict`. The argument is an arbitrary array element. The
`'title' not in data` membership test follows Python semantics for each
shape: key test on dicts, substring test on strings, `==`-element test on
lists, `TypeError` on scalars. Building the dataclass from a non-dict value
that passes the membership test raises `AttributeError` (`.get` missing) or
`TypeError`; both are modelled as `valueError` with a class-prefixed
message, which keeps them distinct from every documented error kind (no
claim depends on their exact identity). -/
def Task.fromDict (genId genNow : String) (data : Json) : Except PyError Task :=
  match data with
  | Json.obj kvs =>
    if (kvs.lookup "title").isNone then
      Except.error (PyError.keyError "Missing required field: title")
    else
      Task.postInit genId genNow
        { id := jget kvs "id" Json.null
          title := jget kvs "title" Json.null
          description := jget kvs "description" Json.null
          priority := PrioField.raw (jget kvs "priority" (Json.str "medium"))
          dueDate := jget kvs "due_date" Json.null
          status := StatField.raw (jget kvs "status" (Json.str "active"))
          createdAt := jget kvs "created_at" Json.null
          completedAt := jget kvs "completed_at" Json.null }
  | Json.str s =>
    if strIn "title" s then
      Except.error (PyError.valueError "AttributeError: str object has no attribute get")
    else
      Except.error (PyError.keyError "Missing required field: title")
  | Json.arr xs =>
    if xs.any (pyEq (Json.str "title")) then
      Except.error (PyError.valueError "AttributeError: list object has no attribute get")
    else
      Except.error (PyError.keyError "Missing required field: title")
  | _ =>
    Except.error (PyError.valueError "TypeError: argument is not iterable")

/-- The serialized `priority` field of `to_dict`:
`self.priority.value if isinstance(self.priority, Priority) else self.priority`. -/
def prioJson : PrioField → Json
  | PrioField.enum p => Json.str p.value
  | PrioField.raw j => j

/-- The serialized `status` field of `to_dict`:
`self.status.value if isinstance(self.status, Status) else self.status`. -/
def statJson : StatField → Json
  | StatField.enum s => Json.str s.value
  | StatField.raw j => j

/-- `Task.to_dict`: serialize a task to a JSON object with the fixed key
order of the source. -/
def Task.toDict (t : Task) : Json :=
  Json.obj
    [ ("id", t.id)
    , ("title", t.title)
    , ("description", t.description)
    , ("priority", prioJson t.priority)
    , ("due_date", t.dueDate)
    , ("status", statJson t.status)
    , ("created_at", t.createdAt)
    , ("completed_at", t.completedAt) ]

/-- Contents of a file on disk: a syntactically valid JSON document
(identified with its parsed value — `json.dump` writes such a document and
`json.loads` recovers it), or syntactically invalid bytes carrying the raw
text. -/
inductive FileData where
  | json (j : Json)
  | invalid (raw : String)

/-- The slice of the file system a `TaskStorage` instance touches: the
target file, its `.tmp` sibling and its `.backup` sibling (`none` = file
absent), and whether the containing directory exists. -/
structure FS where
  dirExists : Bool
  target : Option FileData
  tmp : Option FileData
  backup : Option FileData

/-- Fault injection for the write path: an OS-level error (carrying its
message) at the temp-file write, at the rename, or at the backup copy.
`none`/`false` means the step succeeds. -/
structure Inj where
  failTmpWrite : Option String
  failRename : Option String
  failBackup : Bool

/-- No fault injected: every file-system step succeeds. -/
def noInj : Inj := ⟨none, none, false⟩

/-- `str(e)` of the `json.JSONDecodeError` raised on invalid content
(abstracted as the raw text; no claim depends on its exact form). -/
def jsonDecodeMsg (raw : String) : String := raw

/-- `str(e)` of the `FileNotFoundError` raised by `read_text` on a missing
file (abstracted; no claim depends on its exact form). -/
def fileNotFoundMsg : String := "No such file or directory"

/-- Deserialization of the parsed array's elements, in order, as in the
list comprehension `[Task.from_dict(d) for d in data]`: the first exception
aborts the whole load. `genId i` / `genNow i` model the `uuid.uuid4()` /
`datetime.now()` results for the `i`-th element. -/
def loadTasks (genId genNow : Nat → String) : Nat → List Json → Except PyError (List Task)
  | _, [] => Except.ok []
  | i, d :: ds =>
    match Task.fromDict (genId i) (genNow i) d with
    | Except.error e => Except.error e
    | Except.ok t =>
      match loadTasks genId genNow (i + 1) ds with
      | Except.error e => Except.error e
      | Except.ok ts => Except.ok (t :: ts)

namespace TaskStorage

/-- `TaskStorage.load`. A missing file raises `OSError`, caught and wrapped
as `StorageError`; invalid JSON raises `JSONDecodeError`, caught and
wrapped as `StorageError`; a non-array top level makes `_validate_schema`
raise `StorageError`, which is not among the caught exception classes and
propagates unchanged; any exception from `Task.from_dict` (`KeyError`,
`ValueError`) is likewise not caught. -/
def load (genId genNow : Nat → String) (fs : FS) : Except PyError (List Task) :=
  match fs.target with
  | none =>
    Except.error (PyError.storageError ("Failed to load tasks: " ++ fileNotFoundMsg))
  | some (FileData.invalid raw) =>
    Except.error (PyError.storageError
      ("Failed to load tasks: invalid JSON format - " ++ jsonDecodeMsg raw))
  | some (FileData.json (Json.arr elems)) => loadTasks genId genNow 0 elems
  | some (FileData.json _) =>
    Except.error (PyError.storageError "Invalid JSON schema: expected a list of tasks")

/-- `TaskStorage._create_backup`: copy the target file over the `.backup`
sibling; any `OSError` (including the injected one, or the target being
absent) is swallowed, leaving the backup as it was. -/
def createBackup (fail : Bool) (fs : FS) : FS :=
  if fail then fs
  else
    match fs.target with
    | none => fs
    | some c => { fs with backup := some c }

/-- `TaskStorage._atomic_write`: write the serialized data to the `.tmp`
sibling, rename it onto the target, then `_create_backup`. On a failure of
the write or of the rename, the `except` block removes the `.tmp` file if
present and re-raises. -/
def atomicWrite (inj : Inj) (data : Json) (fs : FS) : FS × Except PyError Unit :=
  match inj.failTmpWrite with
  | some m => ({ fs with tmp := none }, Except.error (PyError.osError m))
  | none =>
    let fs := { fs with tmp := some (FileData.json data) }
    match inj.failRename with
    | some m => ({ fs with tmp := none }, Except.error (PyError.osError m))
    | none =>
      let fs := { fs with target := some (FileData.json data), tmp := none }
      (createBackup inj.failBackup fs, Except.ok ())

/-- `TaskStorage.save`: serialize with `to_dict`, call `_atomic_write`, and
wrap any `OSError`/`IOError`/`PermissionError` as `StorageError`. -/
def save (inj : Inj) (tasks : List Task) (fs : FS) : FS × Except PyError Unit :=
  match atomicWrite inj (Json.arr (tasks.map Task.toDict)) fs with
  | (fs, Except.ok _) => (fs, Except.ok ())
  | (fs, Except.error (PyError.osError m)) =>
    (fs, Except.error (PyError.storageError ("Failed to save tasks: " ++ m)))
  | (fs, Except.error e) => (fs, Except.error e)

/-- `TaskStorage.__init__`: create the containing directory if missing, and
create the target file containing `[]` if it does not exist. -/
def init (fs : FS) : FS :=
  let fs := { fs with dirExists := true }
  match fs.target with
  | none => { fs with target := some (FileData.json (Json.arr [])) }
  | some _ => fs

/-- `TaskStorage.get_all`: `load`, then return fresh instances via
`Task.from_dict(task.to_dict())`. -/
def getAll (genId genNow : Nat → String) (fs : FS) : Except PyError (List Task) :=
  match load genId genNow fs with
  | Except.error e => Except.error e
  | Except.ok tasks => loadTasks genId genNow 0 (tasks.map Task.toDict)

/-- `TaskStorage.get_by_id`: `load`, linear scan for the first record whose
`id` equals the argument, `TaskNotFoundError` if none. -/
def getById (genId genNow : Nat → String) (taskId : String) (fs : FS) :
    Except PyError Task :=
  match load genId genNow fs with
  | Except.error e => Except.error e
  | Except.ok tasks =>
    match tasks.find? (fun t => pyEq t.id (Json.str taskId)) with
    | some t => Except.ok t
    | none =>
      Except.error (PyError.taskNotFoundError ("Task with ID " ++ taskId ++ " not found"))

/-- `TaskStorage.add`: `load`, fail with `StorageError` if any record has
the same `id`, otherwise append and `save`. -/
def add (inj : Inj) (genId genNow : Nat → String) (task : Task) (fs : FS) :
    FS × Except PyError Unit :=
  match load genId genNow fs with
  | Except.error e => (fs, Except.error e)
  | Except.ok tasks =>
    if tasks.any (fun t => pyEq t.id task.id) then
      (fs, Except.error (PyError.storageError
        ("Task with ID " ++ pyStr task.id ++ " already exists")))
    else
      save inj (tasks ++ [task]) fs

/-- `TaskStorage.remove`: `load`, filter out every record whose `id` equals
the argument, fail with `TaskNotFoundError` if nothing was removed,
otherwise `save` the filtered list. -/
def remove (inj : Inj) (genId genNow : Nat → String) (taskId : String) (fs : FS) :
    FS × Except PyError Unit :=
  match load genId genNow fs with
  | Except.error e => (fs, Except.error e)
  | Except.ok tasks =>
    let remaining := tasks.filter (fun t => !pyEq t.id (Json.str taskId))
    if remaining.length = tasks.length then
      (fs, Except.error (PyError.taskNotFoundError
        ("Task with ID " ++ taskId ++ " not found")))
    else
      save inj remaining fs

/-- The in-place replacement loop of `TaskStorage.update`: replace the
first record whose `id` equals the new task's `id` and stop (`break`);
`none` when no record matches. -/
def updateList (task : Task) : List Task → Option (List Task)
  | [] => none
  | t :: ts =>
    if pyEq t.id task.id then some (task :: ts)
    else
      match updateList task ts with
      | some ts2 => some (t :: ts2)
      | none => none

/-- `TaskStorage.update`: `load`, replace the first record with the same
`id` in place, fail with `TaskNotFoundError` if none matches, otherwise
`save` the full list. -/
def update (inj : Inj) (genId genNow : Nat → String) (task : Task) (fs : FS) :
    FS × Except PyError Unit :=
  match load genId genNow fs with
  | Except.error e => (fs, Except.error e)
  | Except.ok tasks =>
    match updateList task tasks with
    | none =>
      (fs, Except.error (PyError.taskNotFoundError
        ("Task with ID " ++ pyStr task.id ++ " not found")))
    | some tasks2 => save inj tasks2 fs

end TaskStorage

/-- C1: for every task list, every prior file-system state and every OS
failure injected into `Save` after the temporary file has been written but
before the rename (the rename step, message `m`, any backup behaviour `b`),
the target file's content after the call equals its content before the
call, no `.tmp` sibling exists after the call returns, and the failure
reaches the caller as a `StorageError`. -/
theorem C1_atomicity_under_failure (fs : FS) (tasks : List Task) (m : String) (b : Bool) :
    (TaskStorage.save ⟨none, some m, b⟩ tasks fs).1.target = fs.target ∧
    (TaskStorage.save ⟨none, some m, b⟩ tasks fs).1.tmp = none ∧
    (TaskStorage.save ⟨none, some m, b⟩ tasks fs).2 =
      Except.error (PyError.storageError ("Failed to save tasks: " ++ m)) :=
  ⟨rfl, rfl, rfl⟩

/-- C5: when the temp write and the rename succeed, a failing backup copy is
swallowed — `Save` returns success, the target holds the new serialized
content, and the backup file is simply left as it was; moreover the backup
step runs after the rename: when it succeeds, the backup receives the NEW
target content. -/
theorem C5_backup_best_effort (fs : FS) (tasks : List Task) :
    (TaskStorage.save ⟨none, none, true⟩ tasks fs).2 = Except.ok () ∧
    (TaskStorage.save ⟨none, none, true⟩ tasks fs).1.target =
      some (FileData.json (Json.arr (tasks.map Task.toDict))) ∧
    (TaskStorage.save ⟨none, none, true⟩ tasks fs).1.backup = fs.backup ∧
    (TaskStorage.save noInj tasks fs).1.backup =
      some (FileData.json (Json.arr (tasks.map Task.toDict))) :=
  ⟨rfl, rfl, rfl, rfl⟩

/-- C8: initializing a store marks the containing directory as existing,
creates the target file containing `[]` exactly when it was absent (an
existing target is kept byte-for-byte), touches no sibling file,
re-initialization is a no-op, and `GetAll()` right after a first
initialization (no pre-existing target) returns the empty list. -/
theorem C8_init_idempotent (fs : FS) (genId genNow : Nat → String) (d : Bool)
    (tm bk : Option FileData) :
    (TaskStorage.init fs).dirExists = true ∧
    (TaskStorage.init fs).target =
      some (fs.target.getD (FileData.json (Json.arr []))) ∧
    (TaskStorage.init fs).tmp = fs.tmp ∧
    (TaskStorage.init fs).backup = fs.backup ∧
    TaskStorage.init (TaskStorage.init fs) = TaskStorage.init fs ∧
    TaskStorage.getAll genId genNow (TaskStorage.init ⟨d, none, tm, bk⟩) =
      Except.ok [] := by
  obtain ⟨d0, t0, tm0, bk0⟩ := fs
  cases t0 <;> exact ⟨rfl, rfl, rfl, rfl, rfl, rfl⟩

/-- C6: `Load` fails with the parse-error kind (a `StorageError` carrying
the "invalid JSON format" message) when the file content is not valid JSON,
and with the schema-error kind (a `StorageError` carrying the "Invalid JSON
schema" message) when the content is valid JSON whose top level is not an
array; the two messages differ for every possible decode message, so the
caller can tell the two failures apart. -/
theorem C6_parse_vs_schema (genId genNow : Nat → String) (d : Bool)
    (tm bk : Option FileData) (raw : String) (j : Json)
    (hj : ∀ xs, j ≠ Json.arr xs) :
    TaskStorage.load genId genNow ⟨d, some (FileData.invalid raw), tm, bk⟩ =
      Except.error (PyError.storageError
        ("Failed to load tasks: invalid JSON format - " ++ jsonDecodeMsg raw)) ∧
    TaskStorage.load genId genNow ⟨d, some (FileData.json j), tm, bk⟩ =
      Except.error (PyError.storageError "Invalid JSON schema: expected a list of tasks") ∧
    ("Failed to load tasks: invalid JSON format - " ++ jsonDecodeMsg raw) ≠
      "Invalid JSON schema: expected a list of tasks" := by
  refine ⟨rfl, ?_, ?_⟩
  · cases j with
    | arr xs => exact absurd rfl (hj xs)
    | null => rfl
    | bool b => rfl
    | num n => rfl
    | str s => rfl
    | obj kvs => rfl
  · intro h
    have h2 := congrArg String.data h
    rw [String.data_append] at h2
    simp at h2

/-- Closed instance of C6 at a concrete store state: a file holding the
bytes `[{"id"` (truncated JSON) yields the parse error, and a file holding
the JSON object `{"not": "a list"}` yields the schema error. -/
theorem C6_parse_vs_schema_witness :
    TaskStorage.load (fun _ => "g") (fun _ => "g")
      ⟨true, some (FileData.invalid "[\x7b\"id\""), none, none⟩ =
      Except.error (PyError.storageError
        ("Failed to load tasks: invalid JSON format - " ++ jsonDecodeMsg "[\x7b\"id\"")) ∧
    TaskStorage.load (fun _ => "g") (fun _ => "g")
      ⟨true, some (FileData.json (Json.obj [("not", Json.str "a list")])), none, none⟩ =
      Except.error (PyError.storageError "Invalid JSON schema: expected a list of tasks") := by
  have h := C6_parse_vs_schema (fun _ => "g") (fun _ => "g") true none none
    "[\x7b\"id\"" (Json.obj [("not", Json.str "a list")]) (fun xs hx => Json.noConfusion hx)
  exact ⟨h.1, h.2.1⟩

/-- A fixed generator for `uuid.uuid4()` / `datetime.now()` results, used in
concrete instances. -/
def gen0 : Nat → String := fun _ => "gen"

/-- A concrete on-disk record with id "a". -/
def recA : Json :=
  Json.obj
    [ ("id", Json.str "a"), ("title", Json.str "T"), ("description", Json.null)
    , ("priority", Json.str "high"), ("due_date", Json.null)
    , ("status", Json.str "active"), ("created_at", Json.str "c")
    , ("completed_at", Json.null) ]

/-- A concrete store state whose target file holds the one-record array
`[recA]`. -/
def fsA : FS := ⟨true, some (FileData.json (Json.arr [recA])), none, none⟩

/-- The task that loading `recA` produces. -/
def taskA : Task :=
  ⟨Json.str "T", Json.null, PrioField.enum Priority.high, Json.null,
   StatField.enum Status.active, Json.str "a", Json.str "c", Json.null⟩

/-- A fresh task reusing the id "a" (a duplicate of `taskA`). -/
def taskA2 : Task :=
  ⟨Json.str "Y", Json.null, PrioField.enum Priority.low, Json.null,
   StatField.enum Status.active, Json.str "a", Json.str "c2", Json.null⟩

/-- A fresh task with the unused id "b". -/
def taskB : Task :=
  ⟨Json.str "Z", Json.null, PrioField.enum Priority.medium, Json.null,
   StatField.enum Status.active, Json.str "b", Json.str "c3", Json.null⟩

/-- Loading the concrete store `fsA` yields exactly `[taskA]`. -/
theorem load_fsA : TaskStorage.load gen0 gen0 fsA = Except.ok [taskA] := rfl

/-- `save` never produces a `TaskNotFoundError`: its only failures are
`StorageError` wrappings of OS errors. -/
theorem save_ne_notFound (inj : Inj) (tasks : List Task) (fs : FS) (m : String) :
    (TaskStorage.save inj tasks fs).2 ≠ Except.error (PyError.taskNotFoundError m) := by
  obtain ⟨w, r, b⟩ := inj
  cases w <;> cases r <;> simp [TaskStorage.save, TaskStorage.atomicWrite]

/-- C3: against any stored collection, `Add` of a task whose ID already
appears fails with the duplicate-error kind (a `StorageError` carrying the
"already exists" message), performs no write (the file-system state is
returned untouched); the failure is never the `TaskNotFoundError` kind; and
`Add` of a task whose ID is absent appends the task and saves the full
list. -/
theorem C3_add_duplicate (inj : Inj) (genId genNow : Nat → String) (task : Task)
    (fs : FS) (tasks : List Task)
    (hload : TaskStorage.load genId genNow fs = Except.ok tasks) :
    ((∃ t ∈ tasks, pyEq t.id task.id = true) →
      TaskStorage.add inj genId genNow task fs =
        (fs, Except.error (PyError.storageError
          ("Task with ID " ++ pyStr task.id ++ " already exists")))) ∧
    (∀ m, (TaskStorage.add inj genId genNow task fs).2 ≠
      Except.error (PyError.taskNotFoundError m)) ∧
    ((∀ t ∈ tasks, pyEq t.id task.id = false) →
      TaskStorage.add inj genId genNow task fs =
        TaskStorage.save inj (tasks ++ [task]) fs) := by
  refine ⟨?_, ?_, ?_⟩
  · rintro ⟨t, ht, he⟩
    have hany : tasks.any (fun t => pyEq t.id task.id) = true :=
      List.any_eq_true.mpr ⟨t, ht, he⟩
    simp [TaskStorage.add, hload, hany]
  · intro m
    cases hany : tasks.any (fun t => pyEq t.id task.id) with
    | true => simp [TaskStorage.add, hload, hany]
    | false =>
      simp only [TaskStorage.add, hload, hany, Bool.false_eq_true, if_false]
      exact save_ne_notFound inj (tasks ++ [task]) fs m
  · intro hall
    have hany : tasks.any (fun t => pyEq t.id task.id) = false := by
      rw [List.any_eq_false]
      intro t ht
      simp [hall t ht]
    simp [TaskStorage.add, hload, hany]

/-- Closed instance of C3: adding a task with the already-present id "a"
fails with the duplicate `StorageError` and leaves the store untouched,
while adding a task with the fresh id "b" saves the appended list. -/
theorem C3_add_duplicate_witness :
    TaskStorage.add noInj gen0 gen0 taskA2 fsA =
      (fsA, Except.error (PyError.storageError
        ("Task with ID " ++ pyStr taskA2.id ++ " already exists"))) ∧
    TaskStorage.add noInj gen0 gen0 taskB fsA =
      TaskStorage.save noInj ([taskA] ++ [taskB]) fsA := by
  constructor
  · exact (C3_add_duplicate noInj gen0 gen0 taskA2 fsA [taskA] rfl).1
      ⟨taskA, by simp, rfl⟩
  · refine (C3_add_duplicate noInj gen0 gen0 taskB fsA [taskA] rfl).2.2 ?_
    intro t ht
    rw [List.mem_singleton] at ht
    rw [ht]
    rfl

/-- The update loop finds no record when no stored id equals the new
task's id. -/
theorem updateList_eq_none (task : Task) (tasks : List Task)
    (h : ∀ t ∈ tasks, pyEq t.id task.id = false) :
    TaskStorage.updateList task tasks = none := by
  induction tasks with
  | nil => rfl
  | cons t ts ih =>
    have ht : pyEq t.id task.id = false := h t (by simp)
    simp [TaskStorage.updateList, ht, ih fun u hu => h u (by simp [hu])]

/-- C4: for an ID absent from the stored collection, `GetByID`, `Remove`
and `Update` all fail with the `TaskNotFoundError` kind carrying the "not
found" message; the two mutating operations return the file-system state
untouched (no write); and that error kind is distinct from the generic
`StorageError` fault. -/
theorem C4_not_found_symmetry (inj : Inj) (genId genNow : Nat → String)
    (i : String) (task : Task) (fs : FS) (tasks : List Task)
    (hload : TaskStorage.load genId genNow fs = Except.ok tasks)
    (habs : ∀ t ∈ tasks, pyEq t.id (Json.str i) = false)
    (hid : task.id = Json.str i) :
    TaskStorage.getById genId genNow i fs =
      Except.error (PyError.taskNotFoundError ("Task with ID " ++ i ++ " not found")) ∧
    TaskStorage.remove inj genId genNow i fs =
      (fs, Except.error (PyError.taskNotFoundError ("Task with ID " ++ i ++ " not found"))) ∧
    TaskStorage.update inj genId genNow task fs =
      (fs, Except.error (PyError.taskNotFoundError ("Task with ID " ++ i ++ " not found"))) ∧
    (∀ m, PyError.taskNotFoundError ("Task with ID " ++ i ++ " not found") ≠
      PyError.storageError m) := by
  refine ⟨?_, ?_, ?_, fun m h => PyError.noConfusion h⟩
  · have hfind : tasks.find? (fun t => pyEq t.id (Json.str i)) = none := by
      rw [List.find?_eq_none]
      intro t ht
      simp [habs t ht]
    simp [TaskStorage.getById, hload, hfind]
  · have hfilter : tasks.filter (fun t => !pyEq t.id (Json.str i)) = tasks := by
      rw [List.filter_eq_self]
      intro t ht
      simp [habs t ht]
    simp [TaskStorage.remove, hload, hfilter]
  · have hnone : TaskStorage.updateList task tasks = none :=
      updateList_eq_none task tasks (by intro t ht; rw [hid]; exact habs t ht)
    simp [TaskStorage.update, hload, hnone, hid, pyStr]

/-- Closed instance of C4: against the one-record store `fsA` (which only
holds id "a"), looking up, removing or updating id "b" fails with
`TaskNotFoundError` and leaves the state untouched. -/
theorem C4_not_found_symmetry_witness :
    TaskStorage.getById gen0 gen0 "b" fsA =
      Except.error (PyError.taskNotFoundError ("Task with ID " ++ "b" ++ " not found")) ∧
    TaskStorage.remove noInj gen0 gen0 "b" fsA =
      (fsA, Except.error (PyError.taskNotFoundError ("Task with ID " ++ "b" ++ " not found"))) ∧
    TaskStorage.update noInj gen0 gen0 taskB fsA =
      (fsA, Except.error (PyError.taskNotFoundError ("Task with ID " ++ "b" ++ " not found"))) := by
  have h := C4_not_found_symmetry noInj gen0 gen0 "b" taskB fsA [taskA] rfl
    (by intro t ht; rw [List.mem_singleton] at ht; rw [ht]; rfl) rfl
  exact ⟨h.1, h.2.1, h.2.2.1⟩

/-- The update loop replaces exactly the first matching record, keeping its
position and every other record. -/
theorem updateList_split (task t : Task) (pre post : List Task)
    (hpre : ∀ u ∈ pre, pyEq u.id task.id = false)
    (hm : pyEq t.id task.id = true) :
    TaskStorage.updateList task (pre ++ t :: post) = some (pre ++ task :: post) := by
  induction pre with
  | nil => simp [TaskStorage.updateList, hm]
  | cons u us ih =>
    have hu : pyEq u.id task.id = false := hpre u (by simp)
    simp [TaskStorage.updateList, hu, ih fun v hv => hpre v (by simp [hv])]

/-- C9: when the stored collection splits as `pre ++ t :: post` with `t`
the first record whose ID equals the new task's ID, `Update` saves exactly
`pre ++ task :: post` — the replaced record keeps its position and every
other record and the order are unchanged; without injected faults the call
succeeds and the target file holds the serialization of that list. -/
theorem C9_update_in_place (inj : Inj) (genId genNow : Nat → String)
    (task t : Task) (fs : FS) (pre post : List Task)
    (hload : TaskStorage.load genId genNow fs = Except.ok (pre ++ t :: post))
    (hpre : ∀ u ∈ pre, pyEq u.id task.id = false)
    (hm : pyEq t.id task.id = true) :
    TaskStorage.update inj genId genNow task fs =
      TaskStorage.save inj (pre ++ task :: post) fs ∧
    (TaskStorage.update noInj genId genNow task fs).2 = Except.ok () ∧
    (TaskStorage.update noInj genId genNow task fs).1.target =
      some (FileData.json (Json.arr ((pre ++ task :: post).map Task.toDict))) := by
  have key : ∀ inj2 : Inj, TaskStorage.update inj2 genId genNow task fs =
      TaskStorage.save inj2 (pre ++ task :: post) fs := by
    intro inj2
    simp [TaskStorage.update, hload, updateList_split task t pre post hpre hm]
  exact ⟨key inj, by rw [key noInj]; rfl, by rw [key noInj]; rfl⟩

/-- Closed instance of C9: updating id "a" in the one-record store `fsA`
replaces the record and writes the serialized singleton list. -/
theorem C9_update_in_place_witness :
    TaskStorage.update noInj gen0 gen0 taskA2 fsA =
      TaskStorage.save noInj ([] ++ taskA2 :: []) fsA ∧
    (TaskStorage.update noInj gen0 gen0 taskA2 fsA).2 = Except.ok () ∧
    (TaskStorage.update noInj gen0 gen0 taskA2 fsA).1.target =
      some (FileData.json (Json.arr (([] ++ taskA2 :: []).map Task.toDict))) :=
  C9_update_in_place noInj gen0 gen0 taskA2 taskA fsA [] [] rfl
    (by intro u hu; cases hu) rfl

/-- A priority field survives serialize-then-construct unchanged: it is an
enum member or a non-string raw value (`__post_init__` turns every string
into an enum member or an error, so every constructed task satisfies
this). -/
def PrioField.stable : PrioField → Bool
  | PrioField.raw (Json.str _) => false
  | _ => true

/-- A status field that survives serialize-then-construct unchanged, as for
`PrioField.stable`. -/
def StatField.stable : StatField → Bool
  | StatField.raw (Json.str _) => false
  | _ => true

/-- A title on which the strip step is the identity: a non-string, or a
string with no leading/trailing whitespace (every constructed task has a
stripped title). -/
def titleNormalized : Json → Bool
  | Json.str s => pyStrip s == s
  | _ => true

/-- A task as produced by the `Task` constructor (`__post_init__`): id and
created_at filled in, title stripped, priority and status either enum
members or non-string raw values. Every valid task in the sense of the
spec (string id, non-empty stripped title, enum priority and status)
satisfies this. -/
def Task.wf (t : Task) : Bool :=
  !t.id.isNull && !t.createdAt.isNull && titleNormalized t.title &&
    t.priority.stable && t.status.stable

theorem titleStep_id (j : Json) (h : titleNormalized j = true) : titleStep j = j := by
  cases j with
  | str s =>
    have : pyStrip s = s := by simpa [titleNormalized] using h
    simp [titleStep, this]
  | null => rfl
  | bool b => rfl
  | num n => rfl
  | arr xs => rfl
  | obj kvs => rfl

/-- Deserializing the serialized form of a task runs `__post_init__` on the
record rebuilt from `to_dict`'s fields. -/
theorem fromDict_toDict_step (gi gn : String) (t : Task) :
    Task.fromDict gi gn t.toDict =
      Task.postInit gi gn
        { t with priority := PrioField.raw (prioJson t.priority),
                 status := StatField.raw (statJson t.status) } := by
  obtain ⟨ti, de, pr, du, st, id, ca, co⟩ := t
  rfl

/-- The status stage of `__post_init__` converts the serialized form of a
stable status field back to the original field. -/
theorem finish_statJson (ti de du co id ca : Json) (pr : PrioField) (st : StatField)
    (h : st.stable = true) :
    Task.postInit.finish ⟨ti, de, pr, du, StatField.raw (statJson st), id, ca, co⟩ =
      Except.ok ⟨ti, de, pr, du, st, id, ca, co⟩ := by
  cases st with
  | enum s => cases s <;> rfl
  | raw j =>
    cases j with
    | str s => simp [StatField.stable] at h
    | null => rfl
    | bool b => rfl
    | num n => rfl
    | arr xs => rfl
    | obj kvs => rfl

/-- `__post_init__` on the record rebuilt from `to_dict`'s fields restores
the original task, for tasks the constructor can produce. -/
theorem postInit_ok (gi gn : String) (ti de du co id ca : Json)
    (pr : PrioField) (st : StatField)
    (hid : id.isNull = false) (hca : ca.isNull = false)
    (hti : titleNormalized ti = true)
    (hpr : pr.stable = true) (hst : st.stable = true) :
    Task.postInit gi gn
      ⟨ti, de, PrioField.raw (prioJson pr), du, StatField.raw (statJson st), id, ca, co⟩ =
      Except.ok ⟨ti, de, pr, du, st, id, ca, co⟩ := by
  have hT := titleStep_id ti hti
  cases pr with
  | enum p =>
    cases p <;>
      simp [Task.postInit, prioJson, Priority.value, hid, hca, hT,
        show pyLower "high" = "high" from rfl,
        show pyLower "medium" = "medium" from rfl,
        show pyLower "low" = "low" from rfl,
        finish_statJson ti de du co id ca _ st hst]
  | raw j =>
    cases j with
    | str s => simp [PrioField.stable] at hpr
    | null =>
      simp [Task.postInit, prioJson, hid, hca, hT,
        finish_statJson ti de du co id ca _ st hst]
    | bool b =>
      simp [Task.postInit, prioJson, hid, hca, hT,
        finish_statJson ti de du co id ca _ st hst]
    | num n =>
      simp [Task.postInit, prioJson, hid, hca, hT,
        finish_statJson ti de du co id ca _ st hst]
    | arr xs =>
      simp [Task.postInit, prioJson, hid, hca, hT,
        finish_statJson ti de du co id ca _ st hst]
    | obj kvs =>
      simp [Task.postInit, prioJson, hid, hca, hT,
        finish_statJson ti de du co id ca _ st hst]

/-- Round trip of a single constructed task through `to_dict` and
`from_dict`. -/
theorem fromDict_toDict (gi gn : String) (t : Task) (h : t.wf = true) :
    Task.fromDict gi gn t.toDict = Except.ok t := by
  obtain ⟨ti, de, pr, du, st, id, ca, co⟩ := t
  simp only [Task.wf, Bool.and_eq_true, Bool.not_eq_true'] at h
  obtain ⟨⟨⟨⟨hid, hca⟩, hti⟩, hpr⟩, hst⟩ := h
  rw [fromDict_toDict_step]
  exact postInit_ok gi gn ti de du co id ca pr st hid hca hti hpr hst

/-- Deserializing a serialized task list, in order, restores the list. -/
theorem loadTasks_map_toDict (gi gn : Nat → String) (k : Nat) (ts : List Task)
    (h : ∀ t ∈ ts, t.wf = true) :
    loadTasks gi gn k (ts.map Task.toDict) = Except.ok ts := by
  induction ts generalizing k with
  | nil => rfl
  | cons t ts ih =>
    have h1 := fromDict_toDict (gi k) (gn k) t (h t (by simp))
    have h2 := ih (k + 1) fun u hu => h u (by simp [hu])
    simp [loadTasks, h1, h2]

/-- C2: for every task list made of constructor-produced tasks (in
particular every valid task list), `Save` followed by `Load` succeeds and
returns a list equal to the saved one field for field, in the same
order. -/
theorem C2_round_trip (genId genNow : Nat → String) (tasks : List Task) (fs : FS)
    (h : ∀ t ∈ tasks, t.wf = true) :
    (TaskStorage.save noInj tasks fs).2 = Except.ok () ∧
    TaskStorage.load genId genNow (TaskStorage.save noInj tasks fs).1 =
      Except.ok tasks := by
  refine ⟨rfl, ?_⟩
  show TaskStorage.load genId genNow
    (TaskStorage.createBackup false
      { fs with target := some (FileData.json (Json.arr (tasks.map Task.toDict))),
                tmp := none }) = Except.ok tasks
  simp [TaskStorage.createBackup, TaskStorage.load,
    loadTasks_map_toDict genId genNow 0 tasks h]

/-- Closed instance of C2: saving and re-loading the two-task list
`[taskA, taskB]` over an empty store returns it unchanged. -/
theorem C2_round_trip_witness :
    (TaskStorage.save noInj [taskA, taskB] ⟨true, none, none, none⟩).2 = Except.ok () ∧
    TaskStorage.load gen0 gen0
      (TaskStorage.save noInj [taskA, taskB] ⟨true, none, none, none⟩).1 =
      Except.ok [taskA, taskB] := by
  refine C2_round_trip gen0 gen0 [taskA, taskB] ⟨true, none, none, none⟩ ?_
  intro t ht
  rcases List.mem_cons.mp ht with h1 | h1
  · rw [h1]; rfl
  · rw [List.mem_singleton] at h1; rw [h1]; rfl

/-- A record object lacking the required `title` key (only objects can lack
a key; other shapes fail differently). -/
def lacksTitle : Json → Bool
  | Json.obj kvs => (kvs.lookup "title").isNone
  | _ => false

/-- Deserialization stops at the first element whose `from_dict` raises,
with that exception: elements before it all deserialize. -/
theorem loadTasks_firstError (gi gn : Nat → String) (k : Nat)
    (pre rest : List Json) (x : Json) (e : PyError)
    (hpre : ∀ el ∈ pre, ∀ g1 g2 : String, (Task.fromDict g1 g2 el).isOk = true)
    (hx : ∀ g1 g2 : String, Task.fromDict g1 g2 x = Except.error e) :
    loadTasks gi gn k (pre ++ x :: rest) = Except.error e := by
  induction pre generalizing k with
  | nil => simp [loadTasks, hx (gi k) (gn k)]
  | cons p ps ih =>
    have hok := hpre p (by simp) (gi k) (gn k)
    cases hfd : Task.fromDict (gi k) (gn k) p with
    | error e2 => rw [hfd] at hok; simp [Except.isOk, Except.toBool] at hok
    | ok t =>
      simp [loadTasks, hfd, ih (k + 1) fun el hel => hpre el (by simp [hel])]

/-- Deserializing a list of record objects in which every element either
deserializes or lacks `title`, with at least one lacking `title`, raises
the missing-field `KeyError`. -/
theorem loadTasks_missingTitle (gi gn : Nat → String) (k : Nat) (elems : List Json)
    (hall : ∀ e ∈ elems, (∃ kvs, e = Json.obj kvs) ∧
      (lacksTitle e = true ∨ ∀ g1 g2 : String, (Task.fromDict g1 g2 e).isOk = true))
    (hsome : ∃ e ∈ elems, lacksTitle e = true) :
    loadTasks gi gn k elems =
      Except.error (PyError.keyError "Missing required field: title") := by
  induction elems generalizing k with
  | nil => obtain ⟨e, he, _⟩ := hsome; cases he
  | cons x xs ih =>
    obtain ⟨⟨kvs, rfl⟩, hor⟩ := hall x (List.mem_cons_self x xs)
    by_cases hl : (kvs.lookup "title").isNone = true
    · simp [loadTasks, Task.fromDict, hl]
    · have hok : ∀ g1 g2 : String, (Task.fromDict g1 g2 (Json.obj kvs)).isOk = true := by
        rcases hor with h | h
        · exact absurd (by simpa [lacksTitle] using h) hl
        · exact h
      have hok0 := hok (gi k) (gn k)
      cases hfd : Task.fromDict (gi k) (gn k) (Json.obj kvs) with
      | error e2 => rw [hfd] at hok0; simp [Except.isOk, Except.toBool] at hok0
      | ok t =>
        have hsome2 : ∃ e ∈ xs, lacksTitle e = true := by
          obtain ⟨e, he, hle⟩ := hsome
          rcases List.mem_cons.mp he with rfl | hmem
          · exact absurd (by simpa [lacksTitle] using hle) hl
          · exact ⟨e, hmem, hle⟩
        simp [loadTasks, hfd,
          ih (k + 1) (fun e he2 => hall e (by simp [he2])) hsome2]

/-- C7 (amended): `from_dict` on a record object lacking the `title` key
raises `KeyError("Missing required field: title")` (the MissingFieldError
kind), and for a file whose top level is an array of record objects in
which every record either deserializes or lacks `title`, and at least one
lacks `title` (that is, the first deserialization failure is a missing
title), `Load` surfaces exactly that `KeyError` — not caught, and not
wrapped into a `StorageError`. -/
theorem C7_missing_title (genId genNow : Nat → String) (d : Bool)
    (tm bk : Option FileData) (elems : List Json)
    (hall : ∀ e ∈ elems, (∃ kvs, e = Json.obj kvs) ∧
      (lacksTitle e = true ∨ ∀ g1 g2 : String, (Task.fromDict g1 g2 e).isOk = true))
    (hsome : ∃ e ∈ elems, lacksTitle e = true) :
    TaskStorage.load genId genNow
        ⟨d, some (FileData.json (Json.arr elems)), tm, bk⟩ =
      Except.error (PyError.keyError "Missing required field: title") ∧
    (∀ (g1 g2 : String) (kvs : List (String × Json)),
      (kvs.lookup "title").isNone = true →
      Task.fromDict g1 g2 (Json.obj kvs) =
        Except.error (PyError.keyError "Missing required field: title")) := by
  constructor
  · exact loadTasks_missingTitle genId genNow 0 elems hall hsome
  · intro g1 g2 kvs hk
    simp [Task.fromDict, hk]

/-- Closed instance of C7: a file holding `[\x7b\x7d]` (one empty record
object, so `title` is absent) makes `Load` fail with the missing-field
`KeyError`. -/
theorem C7_missing_title_witness :
    TaskStorage.load gen0 gen0
        ⟨true, some (FileData.json (Json.arr [Json.obj []])), none, none⟩ =
      Except.error (PyError.keyError "Missing required field: title") :=
  (C7_missing_title gen0 gen0 true none none [Json.obj []]
    (by intro e he; rw [List.mem_singleton] at he; exact ⟨⟨[], he⟩, Or.inl (by rw [he]; rfl)⟩)
    ⟨Json.obj [], by simp, rfl⟩).1

/-- Counterexample to C7 as stated: this file's top-level array contains a
record object (the second, empty one) lacking the `title` key, yet `Load`
does not fail with the MissingFieldError kind — the first record's bad
priority aborts deserialization earlier with a `ValueError`. -/
theorem C7_counterexample :
    TaskStorage.load gen0 gen0
        ⟨true, some (FileData.json (Json.arr
          [Json.obj [("title", Json.str "t"), ("priority", Json.str "urgent")],
           Json.obj []])), none, none⟩ =
      Except.error (PyError.valueError ("Invalid priority: " ++ "urgent")) ∧
    TaskStorage.load gen0 gen0
        ⟨true, some (FileData.json (Json.arr
          [Json.obj [("title", Json.str "t"), ("priority", Json.str "urgent")],
           Json.obj []])), none, none⟩ ≠
      Except.error (PyError.keyError "Missing required field: title") := by
  constructor
  · rfl
  · intro h
    rw [show TaskStorage.load gen0 gen0
        ⟨true, some (FileData.json (Json.arr
          [Json.obj [("title", Json.str "t"), ("priority", Json.str "urgent")],
           Json.obj []])), none, none⟩ =
      Except.error (PyError.valueError ("Invalid priority: " ++ "urgent")) from rfl] at h
    injection h with h2
    exact PyError.noConfusion h2

/-- Counterexample to C10 as stated: the record's `priority` string "HIGH"
is outside {"high", "medium", "low"}, yet `Load` raises nothing —
`__post_init__` lowercases the string first and accepts it, returning the
task with `priority = Priority.HIGH`. -/
theorem C10_counterexample :
    TaskStorage.load gen0 gen0
        ⟨true, some (FileData.json (Json.arr
          [Json.obj [("title", Json.str "t"), ("priority", Json.str "HIGH")]])),
         none, none⟩ =
      Except.ok [⟨Json.str "t", Json.null, PrioField.enum Priority.high, Json.null,
        StatField.enum Status.active, Json.str "gen", Json.str "gen", Json.null⟩] := rfl

/-- `priority` values accepted by `__post_init__` on a record: key absent
(string default "medium"), a string lowercasing to one of the three
values, or any non-string value (left untouched without error). -/
def prioAccepted (kvs : List (String × Json)) : Bool :=
  match kvs.lookup "priority" with
  | none => true
  | some (Json.str s) =>
    pyLower s == "high" || pyLower s == "medium" || pyLower s == "low"
  | some _ => true

/-- `from_dict` on a record with a `title` key and a `priority` string
whose lowercasing is outside the enum raises
`ValueError("Invalid priority: ...")`. -/
theorem fromDict_badPriority (g1 g2 : String) (kvs : List (String × Json)) (s : String)
    (htitle : (kvs.lookup "title").isSome = true)
    (hprio : kvs.lookup "priority" = some (Json.str s))
    (h1 : pyLower s ≠ "high") (h2 : pyLower s ≠ "medium") (h3 : pyLower s ≠ "low") :
    Task.fromDict g1 g2 (Json.obj kvs) =
      Except.error (PyError.valueError ("Invalid priority: " ++ s)) := by
  have hnn : (kvs.lookup "title").isNone = false := by
    cases h : kvs.lookup "title" <;> simp [h] at htitle ⊢
  have hpr : jget kvs "priority" (Json.str "medium") = Json.str s := by
    simp [jget, hprio]
  cases hid : (jget kvs "id" Json.null).isNull <;>
    cases hca : (jget kvs "created_at" Json.null).isNull <;>
      simp [Task.fromDict, hnn, hpr, Task.postInit, hid, hca, h1, h2, h3]

/-- `from_dict` on a record with a `title` key, an accepted `priority`, and
a `status` string whose lowercasing is outside the enum raises
`ValueError("Invalid status: ...")`. -/
theorem fromDict_badStatus (g1 g2 : String) (kvs : List (String × Json)) (s2 : String)
    (htitle : (kvs.lookup "title").isSome = true)
    (hpok : prioAccepted kvs = true)
    (hstat : kvs.lookup "status" = some (Json.str s2))
    (h1 : pyLower s2 ≠ "active") (h2 : pyLower s2 ≠ "completed") :
    Task.fromDict g1 g2 (Json.obj kvs) =
      Except.error (PyError.valueError ("Invalid status: " ++ s2)) := by
  have hnn : (kvs.lookup "title").isNone = false := by
    cases h : kvs.lookup "title" <;> simp [h] at htitle ⊢
  have hst : jget kvs "status" (Json.str "active") = Json.str s2 := by
    simp [jget, hstat]
  rcases hpj : kvs.lookup "priority" with _ | j
  · have hpr : jget kvs "priority" (Json.str "medium") = Json.str "medium" := by
      simp [jget, hpj]
    cases hid : (jget kvs "id" Json.null).isNull <;>
      cases hca : (jget kvs "created_at" Json.null).isNull <;>
        simp [Task.fromDict, hnn, hpr, hst, Task.postInit, Task.postInit.finish,
          hid, hca, h1, h2, show pyLower "medium" = "medium" from rfl]
  · have hpr : jget kvs "priority" (Json.str "medium") = j := by
      simp [jget, hpj]
    cases j with
    | str sp =>
      have hdisj : pyLower sp = "high" ∨ pyLower sp = "medium" ∨ pyLower sp = "low" := by
        rw [prioAccepted, hpj] at hpok
        rcases Bool.or_eq_true_iff.mp hpok with h | h
        · rcases Bool.or_eq_true_iff.mp h with h4 | h4
          · exact Or.inl (by simpa using h4)
          · exact Or.inr (Or.inl (by simpa using h4))
        · exact Or.inr (Or.inr (by simpa using h))
      rcases hdisj with h4 | h4 | h4 <;>
        cases hid : (jget kvs "id" Json.null).isNull <;>
          cases hca : (jget kvs "created_at" Json.null).isNull <;>
            simp [Task.fromDict, hnn, hpr, hst, Task.postInit, Task.postInit.finish,
              hid, hca, h1, h2, h4]
    | null =>
      cases hid : (jget kvs "id" Json.null).isNull <;>
        cases hca : (jget kvs "created_at" Json.null).isNull <;>
          simp [Task.fromDict, hnn, hpr, hst, Task.postInit, Task.postInit.finish,
            hid, hca, h1, h2]
    | bool b =>
      cases hid : (jget kvs "id" Json.null).isNull <;>
        cases hca : (jget kvs "created_at" Json.null).isNull <;>
          simp [Task.fromDict, hnn, hpr, hst, Task.postInit, Task.postInit.finish,
            hid, hca, h1, h2]
    | num n =>
      cases hid : (jget kvs "id" Json.null).isNull <;>
        cases hca : (jget kvs "created_at" Json.null).isNull <;>
          simp [Task.fromDict, hnn, hpr, hst, Task.postInit, Task.postInit.finish,
            hid, hca, h1, h2]
    | arr xs =>
      cases hid : (jget kvs "id" Json.null).isNull <;>
        cases hca : (jget kvs "created_at" Json.null).isNull <;>
          simp [Task.fromDict, hnn, hpr, hst, Task.postInit, Task.postInit.finish,
            hid, hca, h1, h2]
    | obj kvs2 =>
      cases hid : (jget kvs "id" Json.null).isNull <;>
        cases hca : (jget kvs "created_at" Json.null).isNull <;>
          simp [Task.fromDict, hnn, hpr, hst, Task.postInit, Task.postInit.finish,
            hid, hca, h1, h2]

/-- C10 (amended): when the first record failing deserialization is an
object having a `title` key whose `priority` string LOWERCASES outside
{"high", "medium", "low"} — or whose priority is accepted and whose
`status` string lowercases outside {"active", "completed"} — `Load` raises
the corresponding `ValueError`, which is none of the documented error
kinds (`StorageError` carries IOError/ParseError/SchemaError/Duplicate,
`KeyError` carries MissingFieldError, `TaskNotFoundError` carries
NotFoundError) and is not caught or wrapped by the store. -/
theorem C10_undocumented_valueError (genId genNow : Nat → String) (d : Bool)
    (tm bk : Option FileData) (pre rest : List Json) (kvs : List (String × Json))
    (hpre : ∀ el ∈ pre, ∀ g1 g2 : String, (Task.fromDict g1 g2 el).isOk = true)
    (htitle : (kvs.lookup "title").isSome = true) :
    (∀ s : String, kvs.lookup "priority" = some (Json.str s) →
      pyLower s ≠ "high" → pyLower s ≠ "medium" → pyLower s ≠ "low" →
      TaskStorage.load genId genNow
          ⟨d, some (FileData.json (Json.arr (pre ++ Json.obj kvs :: rest))), tm, bk⟩ =
        Except.error (PyError.valueError ("Invalid priority: " ++ s))) ∧
    (∀ s2 : String, prioAccepted kvs = true →
      kvs.lookup "status" = some (Json.str s2) →
      pyLower s2 ≠ "active" → pyLower s2 ≠ "completed" →
      TaskStorage.load genId genNow
          ⟨d, some (FileData.json (Json.arr (pre ++ Json.obj kvs :: rest))), tm, bk⟩ =
        Except.error (PyError.valueError ("Invalid status: " ++ s2))) ∧
    (∀ m m2 : String, PyError.valueError m ≠ PyError.storageError m2 ∧
      PyError.valueError m ≠ PyError.keyError m2 ∧
      PyError.valueError m ≠ PyError.taskNotFoundError m2) := by
  refine ⟨?_, ?_, by intro m m2; exact ⟨fun h => PyError.noConfusion h,
    fun h => PyError.noConfusion h, fun h => PyError.noConfusion h⟩⟩
  · intro s hprio h1 h2 h3
    exact loadTasks_firstError genId genNow 0 pre rest (Json.obj kvs) _ hpre
      fun g1 g2 => fromDict_badPriority g1 g2 kvs s htitle hprio h1 h2 h3
  · intro s2 hpok hstat h1 h2
    exact loadTasks_firstError genId genNow 0 pre rest (Json.obj kvs) _ hpre
      fun g1 g2 => fromDict_badStatus g1 g2 kvs s2 htitle hpok hstat h1 h2

/-- Closed instance of the amended C10: a single-record file with priority
"urgent" makes `Load` raise `ValueError("Invalid priority: urgent")`, and
one with status "done" makes it raise `ValueError("Invalid status:
done")`. -/
theorem C10_undocumented_valueError_witness :
    TaskStorage.load gen0 gen0
        ⟨true, some (FileData.json (Json.arr
          [Json.obj [("title", Json.str "t"), ("priority", Json.str "urgent")]])),
         none, none⟩ =
      Except.error (PyError.valueError ("Invalid priority: " ++ "urgent")) ∧
    TaskStorage.load gen0 gen0
        ⟨true, some (FileData.json (Json.arr
          [Json.obj [("title", Json.str "t"), ("status", Json.str "done")]])),
         none, none⟩ =
      Except.error (PyError.valueError ("Invalid status: " ++ "done")) := by
  constructor
  · exact (C10_undocumented_valueError gen0 gen0 true none none [] []
      [("title", Json.str "t"), ("priority", Json.str "urgent")]
      (by intro el hel; cases hel) rfl).1 "urgent" rfl
      (by decide) (by decide) (by decide)
  · exact (C10_undocumented_valueError gen0 gen0 true none none [] []
      [("title", Json.str "t"), ("status", Json.str "done")]
      (by intro el hel; cases hel) rfl).2.1 "done" rfl rfl
      (by decide) (by decide)

end TaskManager
